import Mathlib

/-!
ViennaCL `result_of` trait registry (viennacl/meta/result_of.hpp).

The header is a set of class templates, each with a primary template and a list of
(partial) specialisations.  A template instantiation `axis<T>` selects the most
specialised matching specialisation, or the primary template when none matches.
The embedding represents C++ types as terms of `CType` and every class template as
a function on `CType` whose equations are the specialisations of the header.

A primary template of the form `typedef typename T::ERROR_... type;` is the
failure-marker idiom of the header: instantiating it is a compile error naming
the marker.  It is embedded as `Except.error` of the marker.
-/

namespace viennacl

/-- C++ types as they occur as template arguments of the registry.  `const` and
`ref` are the type formers `const T` and `T&`; the remaining constructors are the
class templates the header's specialisations mention.  `named n` stands for any
other type (operation tags other than `op_trans`, user classes, `int`, ...). -/
inductive CType where
  | float
  | double
  | size_t
  | named (n : String)
  | row_major
  | column_major
  | op_trans
  | const (t : CType)
  | ref (t : CType)
  | scalar (s : CType)
  | vector_base (s : CType)
  | vector (s : CType) (a : Nat)
  | vector_range (t : CType)
  | vector_slice (t : CType)
  | vector_expression (lhs rhs op : CType)
  | matrix_base (s f : CType)
  | matrix (s f : CType) (a : Nat)
  | matrix_range (t : CType)
  | matrix_slice (t : CType)
  | matrix_expression (lhs rhs op : CType)
  | compressed_matrix (s : CType) (a : Nat)
  | coordinate_matrix (s : CType) (a : Nat)
  | eigen_Matrix (s : CType) (a b c d e : Int)
  | eigen_SparseMatrix (s : CType) (options : Int)
  | ublas_matrix (t f a : CType)
  | ublas_compressed_matrix (t u : CType) (a : Nat) (b c : CType)
  | ublas_coordinate_matrix (t u : CType) (a : Nat) (b c : CType)
  | ublas_vector (t : CType)
  deriving DecidableEq, Repr

/-- The ways an instantiation of the registry can fail to compile: the four
named markers of the header, and the plain missing-member errors of the two
axes whose primary template reads a member of `T`. -/
inductive Failure where
  | ERROR_ARGUMENT_PROVIDED_IS_NOT_A_VECTOR_OR_A_MATRIX
  | ERROR_ARGUMENT_PROVIDED_IS_NOT_A_MATRIX
  | ERROR_CANNOT_DEDUCE_CPU_SCALAR_TYPE_FOR_T
  | ERROR_CANNOT_DEDUCE_VECTOR_FOR_MATRIX_TYPE
  | no_member_size_type
  | no_member_value_type
  deriving DecidableEq, Repr

/-- The three preprocessor switches of the header. -/
structure Switches where
  VIENNACL_WITH_UBLAS : Bool
  VIENNACL_WITH_EIGEN : Bool
  VIENNACL_WITH_MTL4 : Bool
  deriving DecidableEq, Repr

/-- The default build: no third-party switch defined. -/
def Switches.none : Switches := ⟨false, false, false⟩

/-- The member typedefs `size_type` and `value_type` declared by the class types.
The class definitions are outside the header, so they are a parameter. -/
structure Decls where
  size_type : CType → Option CType
  value_type : CType → Option CType

/-- The type `const T`: cv-qualifying an already const type or a reference type
gives the type itself. -/
def constQ : CType → CType
  | .const t => .const t
  | .ref t => .ref t
  | t => .const t

/-- The type `T &`, with reference collapsing when `T` is itself a reference. -/
def addRef : CType → CType
  | .ref t => .ref t
  | t => .ref t

/-- The type with top-level `const` removed. -/
def unqual : CType → CType
  | .const t => unqual t
  | t => t

/-- The nested name `T::member`: lookup ignores the cv-qualification of `T`;
references and the arithmetic types have no members. -/
def memberType (decl : CType → Option CType) : CType → Option CType
  | .const t => memberType decl t
  | .ref _ => Option.none
  | .float => Option.none
  | .double => Option.none
  | .size_t => Option.none
  | t => decl t

/-- The typedef `Eigen::VectorXf`, that is `Eigen::Matrix<float, Dynamic, 1>`. -/
def Eigen_VectorXf : CType := .eigen_Matrix .float (-1) 1 0 (-1) 1

/-- The typedef `Eigen::VectorXd`. -/
def Eigen_VectorXd : CType := .eigen_Matrix .double (-1) 1 0 (-1) 1

/-- The typedef `Eigen::MatrixXf`, that is `Eigen::Matrix<float, Dynamic, Dynamic>`. -/
def Eigen_MatrixXf : CType := .eigen_Matrix .float (-1) (-1) 0 (-1) (-1)

/-- The typedef `Eigen::MatrixXd`. -/
def Eigen_MatrixXd : CType := .eigen_Matrix .double (-1) (-1) 0 (-1) (-1)

/-- Whether the type is const-qualified at top level (`const T`). -/
def isConst : CType → Bool
  | .const _ => true
  | _ => false

/-- Whether the type is a reference type (`T&`). -/
def isReference : CType → Bool
  | .ref _ => true
  | _ => false

namespace result_of

/-- The class template `alignment` (lines 56-119): `alignment<T>::value`.  The
primary template also declares `enum { value = 1 }`, but its typedef of the marker
makes the instantiation ill-formed, so that enumerator is never observed. -/
def alignment : CType → Except Failure Nat
  | .const t => alignment t
  | .vector _ a => .ok a
  | .vector_range t => alignment t
  | .vector_slice t => alignment t
  | .vector_expression lhs _ _ => alignment lhs
  | .matrix _ _ a => .ok a
  | .matrix_range t => alignment t
  | .matrix_slice t => alignment t
  | .matrix_expression lhs _ .op_trans => alignment lhs
  | _ => .error .ERROR_ARGUMENT_PROVIDED_IS_NOT_A_VECTOR_OR_A_MATRIX

/-- The class template `orientation_functor` (lines 126-161). -/
def orientation_functor : CType → Except Failure CType
  | .const t => orientation_functor t
  | .matrix _ f _ => .ok f
  | .matrix_range t => orientation_functor t
  | .matrix_slice t => orientation_functor t
  | .matrix_expression lhs _ .op_trans => orientation_functor lhs
  | _ => .error .ERROR_ARGUMENT_PROVIDED_IS_NOT_A_MATRIX

/-- The class template `cpu_value_type` (lines 253-349).  The rule for
`const vector_expression<const T1, const T2, OP>` is more specialised than the
rule for `const T` and is therefore tried first. -/
def cpu_value_type : CType → Except Failure CType
  | .const (.vector_expression (.const t1) (.const _) _) => cpu_value_type t1
  | .const t => cpu_value_type t
  | .float => .ok .float
  | .double => .ok .double
  | .scalar t => .ok t
  | .vector_base t => .ok t
  | .vector t _ => .ok t
  | .vector_range t => cpu_value_type t
  | .vector_slice t => cpu_value_type t
  | .vector_expression (.const t1) (.const _) _ => cpu_value_type t1
  | .matrix_base t _ => .ok t
  | .matrix t _ _ => .ok t
  | .matrix_range t => cpu_value_type t
  | .matrix_slice t => cpu_value_type t
  | .matrix_expression t1 _ _ => cpu_value_type t1
  | _ => .error .ERROR_CANNOT_DEDUCE_CPU_SCALAR_TYPE_FOR_T

/-- The number of delegations `cpu_value_type<T>` performs before a rule that
delegates no further (a base rule or the primary template) is reached: every
rule of lines 253-349 whose body is `cpu_value_type<X>::type` counts one. -/
def cpu_value_type_steps : CType → Nat
  | .const (.vector_expression (.const t1) (.const _) _) => cpu_value_type_steps t1 + 1
  | .const t => cpu_value_type_steps t + 1
  | .vector_range t => cpu_value_type_steps t + 1
  | .vector_slice t => cpu_value_type_steps t + 1
  | .vector_expression (.const t1) (.const _) _ => cpu_value_type_steps t1 + 1
  | .matrix_range t => cpu_value_type_steps t + 1
  | .matrix_slice t => cpu_value_type_steps t + 1
  | .matrix_expression t1 _ _ => cpu_value_type_steps t1 + 1
  | _ => 0

/-- The class template `size_type` (lines 169-200).  The Eigen rules exist only
under `VIENNACL_WITH_EIGEN`; the primary template reads `T::size_type`. -/
def size_type (decls : Decls) (sw : Switches) (t : CType) : Except Failure CType :=
  match sw.VIENNACL_WITH_EIGEN, t with
  | true, .eigen_Matrix .float (-1) 1 0 (-1) 1 => .ok .size_t
  | true, .eigen_Matrix .double (-1) 1 0 (-1) 1 => .ok .size_t
  | true, .eigen_Matrix _ _ _ _ _ _ => .ok .size_t
  | true, .eigen_SparseMatrix _ _ => .ok .size_t
  | _, t =>
    match memberType decls.size_type t with
    | some r => .ok r
    | Option.none => .error .no_member_size_type

/-- The class template `value_type` (lines 207-245).  `RealScalar` of the Eigen
typedefs `MatrixXf`, `VectorXf` is `float`, of `MatrixXd`, `VectorXd` is `double`. -/
def value_type (decls : Decls) (sw : Switches) (t : CType) : Except Failure CType :=
  match sw.VIENNACL_WITH_EIGEN, t with
  | true, .eigen_Matrix .float (-1) (-1) 0 (-1) (-1) => .ok .float
  | true, .eigen_Matrix .double (-1) (-1) 0 (-1) (-1) => .ok .double
  | true, .eigen_SparseMatrix s _ => .ok s
  | true, .eigen_Matrix .float (-1) 1 0 (-1) 1 => .ok .float
  | true, .eigen_Matrix .double (-1) 1 0 (-1) 1 => .ok .double
  | _, t =>
    match memberType decls.value_type t with
    | some r => .ok r
    | Option.none => .error .no_member_value_type

/-- The class template `matrix_expression_internal_storage` (lines 353-369). -/
def matrix_expression_internal_storage : CType → CType
  | .const .float => .float
  | .const .double => .double
  | t => addRef t

/-- The class template `vector_for_matrix` (lines 378-422).  The uBLAS rules
exist only under `VIENNACL_WITH_UBLAS`. -/
def vector_for_matrix (sw : Switches) (t : CType) : Except Failure CType :=
  match t, sw.VIENNACL_WITH_UBLAS with
  | .matrix s _ a, _ => .ok (.vector s a)
  | .compressed_matrix s a, _ => .ok (.vector s a)
  | .coordinate_matrix s a, _ => .ok (.vector s a)
  | .ublas_matrix s _ _, true => .ok (.ublas_vector s)
  | .ublas_compressed_matrix s _ _ _ _, true => .ok (.ublas_vector s)
  | .ublas_coordinate_matrix s _ _ _ _, true => .ok (.ublas_vector s)
  | _, _ => .error .ERROR_CANNOT_DEDUCE_VECTOR_FOR_MATRIX_TYPE

/-- The class template `reference_if_nonscalar` (lines 425-453). -/
def reference_if_nonscalar : CType → CType
  | .float => .float
  | .const .float => .const .float
  | .double => .double
  | .const .double => .const .double
  | t => addRef t

/-- The axes of the registry: one per class template of the header. -/
inductive Axis where
  | alignment
  | orientation_functor
  | size_type
  | value_type
  | cpu_value_type
  | vector_for_matrix
  | matrix_expression_internal_storage
  | reference_if_nonscalar
  deriving DecidableEq, Repr

/-- What an axis yields: the enumerator `value` or the typedef `type`. -/
inductive Property where
  | value (n : Nat)
  | type (t : CType)
  deriving DecidableEq, Repr

/-- The instantiation `axis<T>` read through its `value` or `type` member. -/
def resolve (decls : Decls) (sw : Switches) : Axis → CType → Except Failure Property
  | .alignment, t => (alignment t).map Property.value
  | .orientation_functor, t => (orientation_functor t).map Property.type
  | .size_type, t => (size_type decls sw t).map Property.type
  | .value_type, t => (value_type decls sw t).map Property.type
  | .cpu_value_type, t => (cpu_value_type t).map Property.type
  | .vector_for_matrix, t => (vector_for_matrix sw t).map Property.type
  | .matrix_expression_internal_storage, t =>
      .ok (Property.type (matrix_expression_internal_storage t))
  | .reference_if_nonscalar, t => .ok (Property.type (reference_if_nonscalar t))

/-- One wrapping layer over a type `T`: a view of `T`, a
`matrix_expression<T, rhs, op>`, or a `vector_expression<const T, const rhs, op>`
(the operand form the `cpu_value_type` rule of lines 308-312 is written for). -/
inductive Layer where
  | vector_range
  | vector_slice
  | matrix_range
  | matrix_slice
  | matrix_expression (rhs op : CType)
  | vector_expression (rhs op : CType)
  deriving DecidableEq, Repr

/-- The type obtained by putting one layer around `t`. -/
def Layer.wrap : Layer → CType → CType
  | .vector_range, t => .vector_range t
  | .vector_slice, t => .vector_slice t
  | .matrix_range, t => .matrix_range t
  | .matrix_slice, t => .matrix_slice t
  | .matrix_expression rhs op, t => .matrix_expression t rhs op
  | .vector_expression rhs op, t => .vector_expression (.const t) (.const rhs) op

/-- The type built by nesting the layers `ls` (outermost first) over `base`. -/
def nest : List Layer → CType → CType
  | [], base => base
  | l :: ls, base => l.wrap (nest ls base)

/-- The scalar parameter of a base shape: `float`, `double`, `scalar<S>`,
`vector_base<S>`, `vector<S,A>`, `matrix_base<S,F>`, `matrix<S,F,A>`. -/
def baseScalar : CType → Option CType
  | .float => some .float
  | .double => some .double
  | .scalar s => some s
  | .vector_base s => some s
  | .vector s _ => some s
  | .matrix_base s _ => some s
  | .matrix s _ _ => some s
  | _ => Option.none

/-- One specialisation of the header: the line of its `template` head in
result_of.hpp, the preprocessor condition under which it is compiled, and the
argument pattern it is declared for. -/
structure Rule where
  line : Nat
  active : Switches → Bool
  pattern : CType → Bool

/-- The specialisations of `alignment`, in file order (the primary template is
not listed). -/
def alignment_rules : List Rule :=
  [ ⟨64, fun _ => true,
      fun | .const _ => true | _ => false⟩,
    ⟨70, fun _ => true,
      fun | .vector _ _ => true | _ => false⟩,
    ⟨76, fun _ => true,
      fun | .vector_range _ => true | _ => false⟩,
    ⟨82, fun _ => true,
      fun | .vector_slice _ => true | _ => false⟩,
    ⟨89, fun _ => true,
      fun | .vector_expression _ _ _ => true | _ => false⟩,
    ⟨97, fun _ => true,
      fun | .matrix _ _ _ => true | _ => false⟩,
    ⟨103, fun _ => true,
      fun | .matrix_range _ => true | _ => false⟩,
    ⟨109, fun _ => true,
      fun | .matrix_slice _ => true | _ => false⟩,
    ⟨115, fun _ => true,
      fun | .matrix_expression _ _ .op_trans => true | _ => false⟩ ]

/-- The specialisations of `orientation_functor`, in file order (the primary template is
not listed). -/
def orientation_functor_rules : List Rule :=
  [ ⟨133, fun _ => true,
      fun | .const _ => true | _ => false⟩,
    ⟨139, fun _ => true,
      fun | .matrix _ _ _ => true | _ => false⟩,
    ⟨145, fun _ => true,
      fun | .matrix_range _ => true | _ => false⟩,
    ⟨151, fun _ => true,
      fun | .matrix_slice _ => true | _ => false⟩,
    ⟨157, fun _ => true,
      fun | .matrix_expression _ _ .op_trans => true | _ => false⟩ ]

/-- The specialisations of `size_type`, in file order (the primary template is
not listed). -/
def size_type_rules : List Rule :=
  [ ⟨177, fun sw => sw.VIENNACL_WITH_EIGEN,
      fun | .eigen_Matrix _ _ _ _ _ _ => true | _ => false⟩,
    ⟨183, fun sw => sw.VIENNACL_WITH_EIGEN,
      fun t => decide (t = Eigen_VectorXf)⟩,
    ⟨189, fun sw => sw.VIENNACL_WITH_EIGEN,
      fun t => decide (t = Eigen_VectorXd)⟩,
    ⟨195, fun sw => sw.VIENNACL_WITH_EIGEN,
      fun | .eigen_SparseMatrix _ _ => true | _ => false⟩ ]

/-- The specialisations of `value_type`, in file order (the primary template is
not listed). -/
def value_type_rules : List Rule :=
  [ ⟨215, fun sw => sw.VIENNACL_WITH_EIGEN,
      fun t => decide (t = Eigen_MatrixXf)⟩,
    ⟨221, fun sw => sw.VIENNACL_WITH_EIGEN,
      fun t => decide (t = Eigen_MatrixXd)⟩,
    ⟨227, fun sw => sw.VIENNACL_WITH_EIGEN,
      fun | .eigen_SparseMatrix _ _ => true | _ => false⟩,
    ⟨233, fun sw => sw.VIENNACL_WITH_EIGEN,
      fun t => decide (t = Eigen_VectorXf)⟩,
    ⟨239, fun sw => sw.VIENNACL_WITH_EIGEN,
      fun t => decide (t = Eigen_VectorXd)⟩ ]

/-- The specialisations of `cpu_value_type`, in file order (the primary template is
not listed). -/
def cpu_value_type_rules : List Rule :=
  [ ⟨260, fun _ => true,
      fun | .const _ => true | _ => false⟩,
    ⟨266, fun _ => true,
      fun | .float => true | _ => false⟩,
    ⟨272, fun _ => true,
      fun | .double => true | _ => false⟩,
    ⟨278, fun _ => true,
      fun | .scalar _ => true | _ => false⟩,
    ⟨284, fun _ => true,
      fun | .vector_base _ => true | _ => false⟩,
    ⟨290, fun _ => true,
      fun | .vector _ _ => true | _ => false⟩,
    ⟨296, fun _ => true,
      fun | .vector_range _ => true | _ => false⟩,
    ⟨302, fun _ => true,
      fun | .vector_slice _ => true | _ => false⟩,
    ⟨308, fun _ => true,
      fun | .vector_expression (.const _) (.const _) _ => true | _ => false⟩,
    ⟨314, fun _ => true,
      fun | .const (.vector_expression (.const _) (.const _) _) => true | _ => false⟩,
    ⟨321, fun _ => true,
      fun | .matrix_base _ _ => true | _ => false⟩,
    ⟨327, fun _ => true,
      fun | .matrix _ _ _ => true | _ => false⟩,
    ⟨333, fun _ => true,
      fun | .matrix_range _ => true | _ => false⟩,
    ⟨339, fun _ => true,
      fun | .matrix_slice _ => true | _ => false⟩,
    ⟨345, fun _ => true,
      fun | .matrix_expression _ _ _ => true | _ => false⟩ ]

/-- The specialisations of `matrix_expression_internal_storage`, in file order (the primary template is
not listed). -/
def matrix_expression_internal_storage_rules : List Rule :=
  [ ⟨359, fun _ => true,
      fun | .const .float => true | _ => false⟩,
    ⟨365, fun _ => true,
      fun | .const .double => true | _ => false⟩ ]

/-- The specialisations of `vector_for_matrix`, in file order (the primary template is
not listed). -/
def vector_for_matrix_rules : List Rule :=
  [ ⟨385, fun _ => true,
      fun | .matrix _ _ _ => true | _ => false⟩,
    ⟨391, fun _ => true,
      fun | .compressed_matrix _ _ => true | _ => false⟩,
    ⟨397, fun _ => true,
      fun | .coordinate_matrix _ _ => true | _ => false⟩,
    ⟨405, fun sw => sw.VIENNACL_WITH_UBLAS,
      fun | .ublas_matrix _ _ _ => true | _ => false⟩,
    ⟨411, fun sw => sw.VIENNACL_WITH_UBLAS,
      fun | .ublas_compressed_matrix _ _ _ _ _ => true | _ => false⟩,
    ⟨417, fun sw => sw.VIENNACL_WITH_UBLAS,
      fun | .ublas_coordinate_matrix _ _ _ _ _ => true | _ => false⟩ ]

/-- The specialisations of `reference_if_nonscalar`, in file order (the primary template is
not listed). -/
def reference_if_nonscalar_rules : List Rule :=
  [ ⟨431, fun _ => true,
      fun | .float => true | _ => false⟩,
    ⟨437, fun _ => true,
      fun | .const .float => true | _ => false⟩,
    ⟨443, fun _ => true,
      fun | .double => true | _ => false⟩,
    ⟨449, fun _ => true,
      fun | .const .double => true | _ => false⟩ ]

/-- Every partial and full specialisation of result_of.hpp, by class template. -/
def rules : Axis → List Rule
  | .alignment => alignment_rules
  | .orientation_functor => orientation_functor_rules
  | .size_type => size_type_rules
  | .value_type => value_type_rules
  | .cpu_value_type => cpu_value_type_rules
  | .matrix_expression_internal_storage => matrix_expression_internal_storage_rules
  | .vector_for_matrix => vector_for_matrix_rules
  | .reference_if_nonscalar => reference_if_nonscalar_rules

/-- The lines of the specialisations of `ax` that are compiled under `sw` and
whose pattern matches `t`. -/
def matching (sw : Switches) (ax : Axis) (t : CType) : List Nat :=
  ((rules ax).filter (fun r => r.active sw && r.pattern t)).map Rule.line

/-- Whether the type is an instance of one of the Eigen class templates the
header has rules for. -/
def isEigen : CType → Bool
  | .eigen_Matrix _ _ _ _ _ _ => true
  | .eigen_SparseMatrix _ _ => true
  | _ => false

/-- Whether the type is an instance of one of the uBLAS matrix class templates
the header has rules for. -/
def isUblas : CType → Bool
  | .ublas_matrix _ _ _ => true
  | .ublas_compressed_matrix _ _ _ _ _ => true
  | .ublas_coordinate_matrix _ _ _ _ _ => true
  | _ => false

/-- The rules of `cpu_value_type` without the dedicated specialisation for
`const vector_expression<const T1, const T2, OP>` (lines 314-318): a const
expression goes through the const-delegation rule and then the rule for the
non-const expression. -/
def cpu_value_type_by_const_delegation : CType → Except Failure CType
  | .const t => cpu_value_type_by_const_delegation t
  | .float => .ok .float
  | .double => .ok .double
  | .scalar t => .ok t
  | .vector_base t => .ok t
  | .vector t _ => .ok t
  | .vector_range t => cpu_value_type_by_const_delegation t
  | .vector_slice t => cpu_value_type_by_const_delegation t
  | .vector_expression (.const t1) (.const _) _ => cpu_value_type_by_const_delegation t1
  | .matrix_base t _ => .ok t
  | .matrix t _ _ => .ok t
  | .matrix_range t => cpu_value_type_by_const_delegation t
  | .matrix_slice t => cpu_value_type_by_const_delegation t
  | .matrix_expression t1 _ _ => cpu_value_type_by_const_delegation t1
  | _ => .error .ERROR_CANNOT_DEDUCE_CPU_SCALAR_TYPE_FOR_T

/-- Whether the type is `float` or `double`. -/
def isNativeScalar : CType → Bool
  | .float => true
  | .double => true
  | _ => false

/-- The well-formed domain of `cpu_value_type`: a base shape over `float` or
`double`, under any nesting of const qualification, views,
`matrix_expression<T1,T2,OP>` and `vector_expression<const T1, const T2, OP>`
(through `T1`). -/
def cpu_domain : CType → Bool
  | .float => true
  | .double => true
  | .scalar s => isNativeScalar s
  | .vector_base s => isNativeScalar s
  | .vector s _ => isNativeScalar s
  | .matrix_base s _ => isNativeScalar s
  | .matrix s _ _ => isNativeScalar s
  | .const t => cpu_domain t
  | .vector_range t => cpu_domain t
  | .vector_slice t => cpu_domain t
  | .matrix_range t => cpu_domain t
  | .matrix_slice t => cpu_domain t
  | .matrix_expression t1 _ _ => cpu_domain t1
  | .vector_expression (.const t1) (.const _) _ => cpu_domain t1
  | _ => false

end result_of

end viennacl


namespace viennacl.result_of

/-! ## Shared lemmas -/

lemma alignment_const (t : CType) : alignment (.const t) = alignment t := by
  simp [alignment]

lemma orientation_functor_const (t : CType) :
    orientation_functor (.const t) = orientation_functor t := by
  simp [orientation_functor]

lemma cpu_value_type_const (t : CType) : cpu_value_type (.const t) = cpu_value_type t := by
  cases t <;> try simp [cpu_value_type]
  case vector_expression lhs rhs op =>
    cases lhs <;> cases rhs <;> simp [cpu_value_type]

lemma memberType_const (decl : CType → Option CType) (t : CType) :
    memberType decl (.const t) = memberType decl t := by
  simp [memberType]

lemma constQ_cases (t : CType) : constQ t = t ∨ constQ t = .const t := by
  cases t <;> simp [constQ]

lemma size_type_eigen_off (decls : Decls) (ub mtl : Bool) (t : CType) :
    size_type decls ⟨ub, false, mtl⟩ t =
      match memberType decls.size_type t with
      | some r => .ok r
      | Option.none => .error .no_member_size_type := by
  simp [size_type]

lemma value_type_eigen_off (decls : Decls) (ub mtl : Bool) (t : CType) :
    value_type decls ⟨ub, false, mtl⟩ t =
      match memberType decls.value_type t with
      | some r => .ok r
      | Option.none => .error .no_member_value_type := by
  simp [value_type]

lemma vector_for_matrix_const (sw : Switches) (t : CType) :
    vector_for_matrix sw (.const t) = .error .ERROR_CANNOT_DEDUCE_VECTOR_FOR_MATRIX_TYPE := by
  simp [vector_for_matrix]

lemma vector_for_matrix_ref (sw : Switches) (t : CType) :
    vector_for_matrix sw (.ref t) = .error .ERROR_CANNOT_DEDUCE_VECTOR_FOR_MATRIX_TYPE := by
  simp [vector_for_matrix]

/-! ## C1: const-transparency -/

/-- C1 (as stated, refuted): const-transparency fails on `vector_for_matrix` and on
both capture axes.  `vector_for_matrix<matrix<float,row_major,1>>` is
`vector<float,1>` while the const-qualified matrix reaches the primary template;
`reference_if_nonscalar<float>` is `float` while `reference_if_nonscalar<const float>`
is `const float`; `matrix_expression_internal_storage<float>` is `float&` while
`matrix_expression_internal_storage<const float>` is `float`. -/
theorem const_transparency_counterexample :
    vector_for_matrix Switches.none (.matrix .float .row_major 1) = .ok (.vector .float 1)
    ∧ vector_for_matrix Switches.none (constQ (.matrix .float .row_major 1))
        = .error .ERROR_CANNOT_DEDUCE_VECTOR_FOR_MATRIX_TYPE
    ∧ reference_if_nonscalar .float = .float
    ∧ reference_if_nonscalar (constQ .float) = .const .float
    ∧ matrix_expression_internal_storage .float = .ref .float
    ∧ matrix_expression_internal_storage (constQ .float) = .float := by
  refine ⟨rfl, rfl, rfl, rfl, rfl, rfl⟩

/-- C1 (amended): for every type `T`, `alignment`, `orientation_functor` and
`cpu_value_type` give on `const T` exactly what they give on `T`; `size_type` and
`value_type` do so when the Eigen rules are not compiled in (member lookup ignores
the qualifier); `vector_for_matrix` has no const rule and yields its failure
marker on every const-qualified type. -/
theorem const_transparency (decls : Decls) (sw : Switches) (ub mtl : Bool) (T : CType) :
    alignment (constQ T) = alignment T
    ∧ orientation_functor (constQ T) = orientation_functor T
    ∧ cpu_value_type (constQ T) = cpu_value_type T
    ∧ size_type decls ⟨ub, false, mtl⟩ (constQ T) = size_type decls ⟨ub, false, mtl⟩ T
    ∧ value_type decls ⟨ub, false, mtl⟩ (constQ T) = value_type decls ⟨ub, false, mtl⟩ T
    ∧ vector_for_matrix sw (.const T) = .error .ERROR_CANNOT_DEDUCE_VECTOR_FOR_MATRIX_TYPE := by
  refine ⟨?_, ?_, ?_, ?_, ?_, vector_for_matrix_const sw T⟩
  · rcases constQ_cases T with h | h <;> rw [h]
    exact alignment_const T
  · rcases constQ_cases T with h | h <;> rw [h]
    exact orientation_functor_const T
  · rcases constQ_cases T with h | h <;> rw [h]
    exact cpu_value_type_const T
  · rcases constQ_cases T with h | h <;> rw [h]
    rw [size_type_eigen_off, size_type_eigen_off, memberType_const]
  · rcases constQ_cases T with h | h <;> rw [h]
    rw [value_type_eigen_off, value_type_eigen_off, memberType_const]

/-! ## C2, C3: `cpu_value_type` of expressions -/

lemma cpu_value_type_vector_expression (LHS RHS Op : CType) :
    cpu_value_type (.vector_expression LHS RHS Op) =
      if isConst LHS && isConst RHS then cpu_value_type LHS
      else .error .ERROR_CANNOT_DEDUCE_CPU_SCALAR_TYPE_FOR_T := by
  cases LHS <;> cases RHS <;> simp [cpu_value_type, isConst]
  case const.const t1 t2 => exact (cpu_value_type_const t1).symm

/-- C2 (as stated, refuted): a `vector_expression` whose operands are not
const-qualified matches no rule of `cpu_value_type`:
`cpu_value_type<vector_expression<vector<float,1>, vector<float,1>, op_add>>` is
the failure marker although `cpu_value_type<vector<float,1>>` is `float`. -/
theorem cpu_value_type_expression_counterexample :
    cpu_value_type (.vector_expression (.vector .float 1) (.vector .float 1) (.named "op_add"))
        = .error .ERROR_CANNOT_DEDUCE_CPU_SCALAR_TYPE_FOR_T
    ∧ cpu_value_type (.vector .float 1) = .ok .float := by
  exact ⟨rfl, rfl⟩

/-- C2 (amended): `cpu_value_type` of a `matrix_expression<LHS,RHS,Op>` is
`cpu_value_type<LHS>` for all operands and tags; of a `vector_expression` it is
`cpu_value_type<LHS>` exactly when both operands are const-qualified
(`vector_expression<const T1, const T2, Op>`), and the failure marker otherwise. -/
theorem cpu_value_type_expression (LHS RHS Op T1 T2 : CType) :
    cpu_value_type (.matrix_expression LHS RHS Op) = cpu_value_type LHS
    ∧ cpu_value_type (.vector_expression (.const T1) (.const T2) Op)
        = cpu_value_type (.const T1)
    ∧ cpu_value_type (.vector_expression LHS RHS Op) =
        (if isConst LHS && isConst RHS then cpu_value_type LHS
         else .error .ERROR_CANNOT_DEDUCE_CPU_SCALAR_TYPE_FOR_T) := by
  refine ⟨by simp [cpu_value_type], ?_, cpu_value_type_vector_expression LHS RHS Op⟩
  rw [cpu_value_type_vector_expression]
  simp [isConst]

/-- C3 (as stated, refuted): with the non-const left operand `vector<float,1>` the
wrapped expression matches no `cpu_value_type` rule, so both views yield the
failure marker, after the single delegation step of the view. -/
theorem cpu_value_type_view_example_counterexample :
    cpu_value_type (.vector_range
        (.vector_expression (.vector .float 1) (.const .float) (.named "op_mult")))
      = .error .ERROR_CANNOT_DEDUCE_CPU_SCALAR_TYPE_FOR_T
    ∧ cpu_value_type (.vector_slice
        (.vector_expression (.vector .float 1) (.const .float) (.named "op_mult")))
      = .error .ERROR_CANNOT_DEDUCE_CPU_SCALAR_TYPE_FOR_T
    ∧ cpu_value_type_steps (.vector_range
        (.vector_expression (.vector .float 1) (.const .float) (.named "op_mult"))) = 1 := by
  exact ⟨rfl, rfl, rfl⟩

/-- C3 (amended): with the left operand const-qualified,
`cpu_value_type<View<vector_expression<const vector<float,1>, const float, op_mult>>>`
is `float` for both vector views, reached after exactly two delegation steps
(view, then expression left operand). -/
theorem cpu_value_type_view_example :
    cpu_value_type (.vector_range
        (.vector_expression (.const (.vector .float 1)) (.const .float) (.named "op_mult")))
      = .ok .float
    ∧ cpu_value_type (.vector_slice
        (.vector_expression (.const (.vector .float 1)) (.const .float) (.named "op_mult")))
      = .ok .float
    ∧ cpu_value_type_steps (.vector_range
        (.vector_expression (.const (.vector .float 1)) (.const .float) (.named "op_mult"))) = 2
    ∧ cpu_value_type_steps (.vector_slice
        (.vector_expression (.const (.vector .float 1)) (.const .float) (.named "op_mult"))) = 2 := by
  exact ⟨rfl, rfl, rfl, rfl⟩

/-! ## C4: `alignment` of expressions -/

/-- C4 (as stated, refuted): `alignment` has a `matrix_expression` rule for
`op_trans` only; the product expression of two `matrix<float,row_major,4>` yields
the failure marker although the left operand has alignment 4. -/
theorem alignment_expression_counterexample :
    alignment (.matrix_expression (.matrix .float .row_major 4) (.matrix .float .row_major 4)
        (.named "op_prod")) = .error .ERROR_ARGUMENT_PROVIDED_IS_NOT_A_VECTOR_OR_A_MATRIX
    ∧ alignment (.matrix .float .row_major 4) = .ok 4 := by
  exact ⟨rfl, rfl⟩

/-- C4 (amended): `alignment` of every `vector_expression<LHS,RHS,Op>` is
`alignment<LHS>`; of a `matrix_expression<LHS,RHS,Op>` it is `alignment<LHS>` when
`Op` is `op_trans` and the failure marker for every other tag. -/
theorem alignment_expression (LHS RHS Op : CType) :
    alignment (.vector_expression LHS RHS Op) = alignment LHS
    ∧ alignment (.matrix_expression LHS RHS Op) =
        (if Op = .op_trans then alignment LHS
         else .error .ERROR_ARGUMENT_PROVIDED_IS_NOT_A_VECTOR_OR_A_MATRIX) := by
  refine ⟨by simp [alignment], ?_⟩
  cases Op <;> simp [alignment]

/-! ## C5: value safety of the two capture axes -/

lemma isReference_addRef (T : CType) : isReference (addRef T) = true := by
  cases T <;> simp [addRef, isReference]

lemma matrix_expression_internal_storage_default (T : CType)
    (hf : T ≠ .const .float) (hd : T ≠ .const .double) :
    matrix_expression_internal_storage T = addRef T := by
  unfold matrix_expression_internal_storage
  split
  · exact absurd rfl hf
  · exact absurd rfl hd
  · rfl

lemma reference_if_nonscalar_default (T : CType)
    (h1 : T ≠ .float) (h2 : T ≠ .const .float) (h3 : T ≠ .double) (h4 : T ≠ .const .double) :
    reference_if_nonscalar T = addRef T := by
  unfold reference_if_nonscalar
  split
  · exact absurd rfl h1
  · exact absurd rfl h2
  · exact absurd rfl h3
  · exact absurd rfl h4
  · rfl

/-- C5: on both capture axes every type other than `float`, `double` and their
const-qualified forms resolves to the reference type `T&`, and `const float`,
`const double` resolve to a non-reference type (`float`, `double` on
`matrix_expression_internal_storage`; `const float`, `const double` on
`reference_if_nonscalar`). -/
theorem value_safety (T : CType) (hf : unqual T ≠ .float) (hd : unqual T ≠ .double) :
    matrix_expression_internal_storage T = addRef T
    ∧ reference_if_nonscalar T = addRef T
    ∧ isReference (matrix_expression_internal_storage T) = true
    ∧ isReference (reference_if_nonscalar T) = true
    ∧ matrix_expression_internal_storage (.const .float) = .float
    ∧ matrix_expression_internal_storage (.const .double) = .double
    ∧ reference_if_nonscalar (.const .float) = .const .float
    ∧ reference_if_nonscalar (.const .double) = .const .double
    ∧ isReference (matrix_expression_internal_storage (.const .float)) = false
    ∧ isReference (matrix_expression_internal_storage (.const .double)) = false
    ∧ isReference (reference_if_nonscalar (.const .float)) = false
    ∧ isReference (reference_if_nonscalar (.const .double)) = false := by
  have h1 : T ≠ .float := by rintro rfl; exact hf rfl
  have h2 : T ≠ .const .float := by rintro rfl; exact hf rfl
  have h3 : T ≠ .double := by rintro rfl; exact hd rfl
  have h4 : T ≠ .const .double := by rintro rfl; exact hd rfl
  have hm := matrix_expression_internal_storage_default T h2 h4
  have hr := reference_if_nonscalar_default T h1 h2 h3 h4
  refine ⟨hm, hr, ?_, ?_, rfl, rfl, rfl, rfl, rfl, rfl, rfl, rfl⟩
  · rw [hm]; exact isReference_addRef T
  · rw [hr]; exact isReference_addRef T

/-- C5 at `const vector<float,1>`: both axes give `const vector<float,1>&`. -/
theorem value_safety_witness :
    unqual (.const (.vector .float 1)) ≠ .float
    ∧ unqual (.const (.vector .float 1)) ≠ .double
    ∧ matrix_expression_internal_storage (.const (.vector .float 1))
        = .ref (.const (.vector .float 1))
    ∧ reference_if_nonscalar (.const (.vector .float 1))
        = .ref (.const (.vector .float 1)) :=
  ⟨by simp [unqual], by simp [unqual],
   (value_safety (.const (.vector .float 1)) (by simp [unqual]) (by simp [unqual])).1,
   (value_safety (.const (.vector .float 1)) (by simp [unqual]) (by simp [unqual])).2.1⟩

/-! ## C6: failure markers -/

lemma alignment_ok_or_marker (T : CType) :
    (∃ a, alignment T = .ok a)
    ∨ alignment T = .error .ERROR_ARGUMENT_PROVIDED_IS_NOT_A_VECTOR_OR_A_MATRIX := by
  induction T with
  | matrix_expression lhs rhs op ih _ _ => cases op <;> simp [alignment, ih]
  | _ => simp_all [alignment]

lemma orientation_functor_ok_or_marker (T : CType) :
    (∃ f, orientation_functor T = .ok f)
    ∨ orientation_functor T = .error .ERROR_ARGUMENT_PROVIDED_IS_NOT_A_MATRIX := by
  induction T with
  | matrix_expression lhs rhs op ih _ _ => cases op <;> simp [orientation_functor, ih]
  | _ => simp_all [orientation_functor]

lemma cpu_value_type_ok_or_marker (T : CType) :
    (∃ s, cpu_value_type T = .ok s)
    ∨ cpu_value_type T = .error .ERROR_CANNOT_DEDUCE_CPU_SCALAR_TYPE_FOR_T := by
  induction T with
  | const t ih => rw [cpu_value_type_const]; exact ih
  | vector_expression lhs rhs op ih _ _ =>
    rw [cpu_value_type_vector_expression]
    split
    · exact ih
    · exact Or.inr rfl
  | _ => simp_all [cpu_value_type]

lemma vector_for_matrix_ok_or_marker (sw : Switches) (T : CType) :
    (∃ v, vector_for_matrix sw T = .ok v)
    ∨ vector_for_matrix sw T = .error .ERROR_CANNOT_DEDUCE_VECTOR_FOR_MATRIX_TYPE := by
  unfold vector_for_matrix
  split <;> simp

/-- C6 (as stated, refuted): four of the eight axes have no failure marker.  On
the unrelated class `Foo`, which matches no specialisation of any axis, the two
capture axes resolve to the default `Foo&`, and `size_type`, `value_type` fail
with the plain missing-member error of `Foo::size_type`, `Foo::value_type`. -/
theorem failure_specificity_counterexample :
    resolve ⟨fun _ => Option.none, fun _ => Option.none⟩ Switches.none
        .reference_if_nonscalar (.named "Foo") = .ok (.type (.ref (.named "Foo")))
    ∧ resolve ⟨fun _ => Option.none, fun _ => Option.none⟩ Switches.none
        .matrix_expression_internal_storage (.named "Foo") = .ok (.type (.ref (.named "Foo")))
    ∧ resolve ⟨fun _ => Option.none, fun _ => Option.none⟩ Switches.none
        .size_type (.named "Foo") = .error .no_member_size_type
    ∧ resolve ⟨fun _ => Option.none, fun _ => Option.none⟩ Switches.none
        .value_type (.named "Foo") = .error .no_member_value_type := by
  exact ⟨rfl, rfl, rfl, rfl⟩

/-- C6 (amended): on the four axes `alignment`, `orientation_functor`,
`cpu_value_type` and `vector_for_matrix` every type either resolves or yields that
axis's own marker, never another failure; an unrelated type `named n` and
`orientation_functor` on `vector<S,A>` yield the marker; the four markers are
pairwise distinct.  `size_type` and `value_type` have no marker (they fail only
with the missing-member error), and the two capture axes never fail. -/
theorem failure_specificity (decls : Decls) (sw : Switches) (T S : CType) (A : Nat)
    (n : String) :
    ((∃ a, alignment T = .ok a)
      ∨ alignment T = .error .ERROR_ARGUMENT_PROVIDED_IS_NOT_A_VECTOR_OR_A_MATRIX)
    ∧ ((∃ f, orientation_functor T = .ok f)
      ∨ orientation_functor T = .error .ERROR_ARGUMENT_PROVIDED_IS_NOT_A_MATRIX)
    ∧ ((∃ s, cpu_value_type T = .ok s)
      ∨ cpu_value_type T = .error .ERROR_CANNOT_DEDUCE_CPU_SCALAR_TYPE_FOR_T)
    ∧ ((∃ v, vector_for_matrix sw T = .ok v)
      ∨ vector_for_matrix sw T = .error .ERROR_CANNOT_DEDUCE_VECTOR_FOR_MATRIX_TYPE)
    ∧ alignment (.named n) = .error .ERROR_ARGUMENT_PROVIDED_IS_NOT_A_VECTOR_OR_A_MATRIX
    ∧ orientation_functor (.named n) = .error .ERROR_ARGUMENT_PROVIDED_IS_NOT_A_MATRIX
    ∧ cpu_value_type (.named n) = .error .ERROR_CANNOT_DEDUCE_CPU_SCALAR_TYPE_FOR_T
    ∧ vector_for_matrix sw (.named n) = .error .ERROR_CANNOT_DEDUCE_VECTOR_FOR_MATRIX_TYPE
    ∧ orientation_functor (.vector S A) = .error .ERROR_ARGUMENT_PROVIDED_IS_NOT_A_MATRIX
    ∧ Failure.ERROR_ARGUMENT_PROVIDED_IS_NOT_A_VECTOR_OR_A_MATRIX
        ≠ Failure.ERROR_ARGUMENT_PROVIDED_IS_NOT_A_MATRIX
    ∧ Failure.ERROR_ARGUMENT_PROVIDED_IS_NOT_A_VECTOR_OR_A_MATRIX
        ≠ Failure.ERROR_CANNOT_DEDUCE_CPU_SCALAR_TYPE_FOR_T
    ∧ Failure.ERROR_ARGUMENT_PROVIDED_IS_NOT_A_VECTOR_OR_A_MATRIX
        ≠ Failure.ERROR_CANNOT_DEDUCE_VECTOR_FOR_MATRIX_TYPE
    ∧ Failure.ERROR_ARGUMENT_PROVIDED_IS_NOT_A_MATRIX
        ≠ Failure.ERROR_CANNOT_DEDUCE_CPU_SCALAR_TYPE_FOR_T
    ∧ Failure.ERROR_ARGUMENT_PROVIDED_IS_NOT_A_MATRIX
        ≠ Failure.ERROR_CANNOT_DEDUCE_VECTOR_FOR_MATRIX_TYPE
    ∧ Failure.ERROR_CANNOT_DEDUCE_CPU_SCALAR_TYPE_FOR_T
        ≠ Failure.ERROR_CANNOT_DEDUCE_VECTOR_FOR_MATRIX_TYPE
    ∧ ((∃ r, size_type decls sw T = .ok r)
      ∨ size_type decls sw T = .error .no_member_size_type)
    ∧ ((∃ r, value_type decls sw T = .ok r)
      ∨ value_type decls sw T = .error .no_member_value_type)
    ∧ resolve decls sw .matrix_expression_internal_storage T
        = .ok (.type (matrix_expression_internal_storage T))
    ∧ resolve decls sw .reference_if_nonscalar T
        = .ok (.type (reference_if_nonscalar T)) := by
  refine ⟨alignment_ok_or_marker T, orientation_functor_ok_or_marker T,
    cpu_value_type_ok_or_marker T, vector_for_matrix_ok_or_marker sw T,
    rfl, rfl, rfl, ?_, rfl, by decide, by decide, by decide, by decide, by decide, by decide,
    ?_, ?_, rfl, rfl⟩
  · simp [vector_for_matrix]
  · unfold size_type
    split <;> try simp
    split <;> simp
  · unfold value_type
    split <;> try simp
    split <;> simp

/-! ## C7: delegation through views -/

/-- C7: for every `T`, `alignment` and `cpu_value_type` of `vector_range<T>`,
`vector_slice<T>`, `matrix_range<T>` and `matrix_slice<T>` are those of `T`, and
`orientation_functor` of `matrix_range<T>` and `matrix_slice<T>` is that of `T`
(the same value when `T` resolves, the same marker when it does not). -/
theorem view_delegation (T : CType) :
    alignment (.vector_range T) = alignment T
    ∧ alignment (.vector_slice T) = alignment T
    ∧ alignment (.matrix_range T) = alignment T
    ∧ alignment (.matrix_slice T) = alignment T
    ∧ cpu_value_type (.vector_range T) = cpu_value_type T
    ∧ cpu_value_type (.vector_slice T) = cpu_value_type T
    ∧ cpu_value_type (.matrix_range T) = cpu_value_type T
    ∧ cpu_value_type (.matrix_slice T) = cpu_value_type T
    ∧ orientation_functor (.matrix_range T) = orientation_functor T
    ∧ orientation_functor (.matrix_slice T) = orientation_functor T := by
  simp [alignment, cpu_value_type, orientation_functor]

/-! ## C8: the vector type of a matrix type -/

/-- C8: for every scalar type `S`, orientation `F`, alignment `A` and every switch
setting, `vector_for_matrix` of `matrix<S,F,A>`, `compressed_matrix<S,A>` and
`coordinate_matrix<S,A>` is `vector<S,A>`, whose `cpu_value_type` is `S` and whose
`alignment` is `A`; for `compressed_matrix<double,4>` these are `double` and 4. -/
theorem vector_for_matrix_properties (sw : Switches) (S F : CType) (A : Nat) :
    vector_for_matrix sw (.matrix S F A) = .ok (.vector S A)
    ∧ vector_for_matrix sw (.compressed_matrix S A) = .ok (.vector S A)
    ∧ vector_for_matrix sw (.coordinate_matrix S A) = .ok (.vector S A)
    ∧ cpu_value_type (.vector S A) = .ok S
    ∧ alignment (.vector S A) = .ok A
    ∧ (vector_for_matrix sw (.compressed_matrix .double 4)).bind cpu_value_type = .ok .double
    ∧ (vector_for_matrix sw (.compressed_matrix .double 4)).bind alignment = .ok 4 := by
  simp [vector_for_matrix, cpu_value_type, alignment, Except.bind]

/-! ## C9: nesting depth and delegation steps -/

lemma cpu_value_type_base (b S : CType) (hb : baseScalar b = some S) :
    cpu_value_type b = .ok S ∧ cpu_value_type_steps b = 0 := by
  cases b <;> simp_all [baseScalar, cpu_value_type, cpu_value_type_steps]

/-- C9 (as stated, refuted): one `vector_expression` layer over the base shape
`vector<float,1>`, taken through a left operand that is not const-qualified,
yields the failure marker instead of the base scalar `float`. -/
theorem cpu_value_type_nesting_counterexample :
    baseScalar (.vector .float 1) = some .float
    ∧ cpu_value_type (.vector_expression (.vector .float 1) (.const .float) (.named "op_mult"))
        = .error .ERROR_CANNOT_DEDUCE_CPU_SCALAR_TYPE_FOR_T
    ∧ cpu_value_type_steps
        (.vector_expression (.vector .float 1) (.const .float) (.named "op_mult")) = 0 := by
  exact ⟨rfl, rfl, rfl⟩

/-- C9 (amended): for every type built by nesting `d` layers of views,
`matrix_expression<T,R,Op>` and `vector_expression<const T, const R, Op>` over a
base shape with scalar type `S`, `cpu_value_type` returns `S` after exactly `d`
delegation steps. -/
theorem cpu_value_type_nesting (ls : List Layer) (b S : CType)
    (hb : baseScalar b = some S) :
    cpu_value_type (nest ls b) = .ok S
    ∧ cpu_value_type_steps (nest ls b) = ls.length := by
  induction ls with
  | nil => simpa [nest] using cpu_value_type_base b S hb
  | cons l ls ih =>
    obtain ⟨ih1, ih2⟩ := ih
    cases l <;>
      simp [nest, Layer.wrap, cpu_value_type, cpu_value_type_steps, ih1, ih2]

/-- C9 at `vector_slice<vector_range<vector_expression<const vector<double,4>,
const double, op_mult>>>`: three layers, three steps, result `double`. -/
theorem cpu_value_type_nesting_witness :
    baseScalar (.vector .double 4) = some .double
    ∧ cpu_value_type (nest [.vector_slice, .vector_range,
          .vector_expression .double (.named "op_mult")] (.vector .double 4)) = .ok .double
    ∧ cpu_value_type_steps (nest [.vector_slice, .vector_range,
          .vector_expression .double (.named "op_mult")] (.vector .double 4)) = 3 :=
  ⟨rfl, cpu_value_type_nesting _ (.vector .double 4) .double rfl⟩

/-! ## C10: orientation of the transpose expression -/

/-- C10: `orientation_functor` of `matrix_expression<LHS,RHS,op_trans>` is that of
`LHS`, and of `matrix<S,F,A>` it is `F`; so the transpose expression of a
row-major matrix reports `row_major` and of a column-major matrix `column_major`. -/
theorem orientation_functor_trans (LHS RHS S F : CType) (A : Nat) :
    orientation_functor (.matrix_expression LHS RHS .op_trans) = orientation_functor LHS
    ∧ orientation_functor (.matrix S F A) = .ok F
    ∧ orientation_functor (.matrix_expression (.matrix S .row_major A) RHS .op_trans)
        = .ok .row_major
    ∧ orientation_functor (.matrix_expression (.matrix S .column_major A) RHS .op_trans)
        = .ok .column_major := by
  simp [orientation_functor]

/-! ## C11: the domain of `vector_for_matrix` -/

/-- C11: with no switch enabled, `vector_for_matrix<T>` resolves exactly when `T`
is `matrix<S,F,A>`, `compressed_matrix<S,A>` or `coordinate_matrix<S,A>`, and
yields `ERROR_CANNOT_DEDUCE_VECTOR_FOR_MATRIX_TYPE` exactly when it is none of
them; in particular on `matrix_range`, `matrix_slice` and every
`matrix_expression`. -/
theorem vector_for_matrix_domain (T X R Op : CType) :
    ((∃ v, vector_for_matrix Switches.none T = .ok v) ↔
      ((∃ S F A, T = .matrix S F A) ∨ (∃ S A, T = .compressed_matrix S A)
        ∨ (∃ S A, T = .coordinate_matrix S A)))
    ∧ (vector_for_matrix Switches.none T = .error .ERROR_CANNOT_DEDUCE_VECTOR_FOR_MATRIX_TYPE ↔
      ¬ ((∃ S F A, T = .matrix S F A) ∨ (∃ S A, T = .compressed_matrix S A)
        ∨ (∃ S A, T = .coordinate_matrix S A)))
    ∧ vector_for_matrix Switches.none (.matrix_range X)
        = .error .ERROR_CANNOT_DEDUCE_VECTOR_FOR_MATRIX_TYPE
    ∧ vector_for_matrix Switches.none (.matrix_slice X)
        = .error .ERROR_CANNOT_DEDUCE_VECTOR_FOR_MATRIX_TYPE
    ∧ vector_for_matrix Switches.none (.matrix_expression X R Op)
        = .error .ERROR_CANNOT_DEDUCE_VECTOR_FOR_MATRIX_TYPE := by
  refine ⟨?_, ?_, rfl, rfl, rfl⟩
  · cases T <;> simp [vector_for_matrix, Switches.none]
  · cases T <;> simp [vector_for_matrix, Switches.none]

/-! ## C12: overlap of rule patterns -/

lemma matching_alignment (sw : Switches) (T : CType) :
    (matching sw .alignment T).length ≤ 1 := by
  cases T with
  | matrix_expression lhs rhs op => cases op <;> exact Nat.le_of_ble_eq_true rfl
  | _ => exact Nat.le_of_ble_eq_true rfl

lemma matching_orientation_functor (sw : Switches) (T : CType) :
    (matching sw .orientation_functor T).length ≤ 1 := by
  cases T with
  | matrix_expression lhs rhs op => cases op <;> exact Nat.le_of_ble_eq_true rfl
  | _ => exact Nat.le_of_ble_eq_true rfl

lemma matching_matrix_expression_internal_storage (sw : Switches) (T : CType) :
    (matching sw .matrix_expression_internal_storage T).length ≤ 1 := by
  cases T with
  | const t => cases t <;> exact Nat.le_of_ble_eq_true rfl
  | _ => exact Nat.le_of_ble_eq_true rfl

lemma matching_reference_if_nonscalar (sw : Switches) (T : CType) :
    (matching sw .reference_if_nonscalar T).length ≤ 1 := by
  cases T with
  | const t => cases t <;> exact Nat.le_of_ble_eq_true rfl
  | _ => exact Nat.le_of_ble_eq_true rfl

lemma matching_vector_for_matrix (sw : Switches) (T : CType) :
    (matching sw .vector_for_matrix T).length ≤ 1 := by
  obtain ⟨ub, eg, mtl⟩ := sw
  cases ub <;> cases T <;> exact Nat.le_of_ble_eq_true rfl

lemma matching_cpu_value_type (sw : Switches) (T : CType) :
    (matching sw .cpu_value_type T).length ≤ 1
    ∨ ∃ t1 t2 op, T = .const (.vector_expression (.const t1) (.const t2) op)
        ∧ matching sw .cpu_value_type T = [260, 314] := by
  cases T with
  | const t =>
    cases t with
    | vector_expression lhs rhs op =>
      cases lhs with
      | const t1 =>
        cases rhs with
        | const t2 => exact Or.inr ⟨t1, t2, op, rfl, rfl⟩
        | _ => exact Or.inl (Nat.le_of_ble_eq_true rfl)
      | _ => exact Or.inl (Nat.le_of_ble_eq_true rfl)
    | _ => exact Or.inl (Nat.le_of_ble_eq_true rfl)
  | vector_expression lhs rhs op =>
    cases lhs with
    | const t1 => cases rhs <;> exact Or.inl (Nat.le_of_ble_eq_true rfl)
    | _ => exact Or.inl (Nat.le_of_ble_eq_true rfl)
  | _ => exact Or.inl (Nat.le_of_ble_eq_true rfl)

lemma matching_size_type (sw : Switches) (T : CType) :
    (matching sw .size_type T).length ≤ 1
    ∨ (sw.VIENNACL_WITH_EIGEN = true ∧ T = Eigen_VectorXf
        ∧ matching sw .size_type T = [177, 183])
    ∨ (sw.VIENNACL_WITH_EIGEN = true ∧ T = Eigen_VectorXd
        ∧ matching sw .size_type T = [177, 189]) := by
  obtain ⟨ub, eg, mtl⟩ := sw
  cases eg with
  | false => exact Or.inl (Nat.le_of_ble_eq_true rfl)
  | true =>
    by_cases h1 : T = Eigen_VectorXf
    · subst h1; exact Or.inr (Or.inl ⟨rfl, rfl, rfl⟩)
    · by_cases h2 : T = Eigen_VectorXd
      · subst h2; exact Or.inr (Or.inr ⟨rfl, rfl, rfl⟩)
      · left
        cases T <;> simp [matching, rules, size_type_rules, h1, h2]

lemma matching_value_type (sw : Switches) (T : CType) :
    (matching sw .value_type T).length ≤ 1 := by
  obtain ⟨ub, eg, mtl⟩ := sw
  cases eg with
  | false => exact Nat.le_of_ble_eq_true rfl
  | true =>
    by_cases h1 : T = Eigen_MatrixXf
    · subst h1; exact Nat.le_of_ble_eq_true rfl
    · by_cases h2 : T = Eigen_MatrixXd
      · subst h2; exact Nat.le_of_ble_eq_true rfl
      · by_cases h3 : T = Eigen_VectorXf
        · subst h3; exact Nat.le_of_ble_eq_true rfl
        · by_cases h4 : T = Eigen_VectorXd
          · subst h4; exact Nat.le_of_ble_eq_true rfl
          · cases T <;> simp [matching, rules, value_type_rules, h1, h2, h3, h4]

lemma unmatched_alignment (sw : Switches) (T : CType) (h : matching sw .alignment T = []) :
    alignment T = .error .ERROR_ARGUMENT_PROVIDED_IS_NOT_A_VECTOR_OR_A_MATRIX := by
  cases T with
  | matrix_expression lhs rhs op =>
    cases op <;> first | rfl | simp [matching, rules, alignment_rules] at h
  | _ => first | rfl | simp [matching, rules, alignment_rules] at h

lemma unmatched_orientation_functor (sw : Switches) (T : CType)
    (h : matching sw .orientation_functor T = []) :
    orientation_functor T = .error .ERROR_ARGUMENT_PROVIDED_IS_NOT_A_MATRIX := by
  cases T with
  | matrix_expression lhs rhs op =>
    cases op <;> first | rfl | simp [matching, rules, orientation_functor_rules] at h
  | _ => first | rfl | simp [matching, rules, orientation_functor_rules] at h

lemma unmatched_cpu_value_type (sw : Switches) (T : CType)
    (h : matching sw .cpu_value_type T = []) :
    cpu_value_type T = .error .ERROR_CANNOT_DEDUCE_CPU_SCALAR_TYPE_FOR_T := by
  cases T with
  | vector_expression lhs rhs op =>
    cases lhs with
    | const t1 =>
      cases rhs <;> first | rfl | simp [matching, rules, cpu_value_type_rules] at h
    | _ => rfl
  | _ => first | rfl | simp [matching, rules, cpu_value_type_rules] at h

lemma unmatched_vector_for_matrix (sw : Switches) (T : CType)
    (h : matching sw .vector_for_matrix T = []) :
    vector_for_matrix sw T = .error .ERROR_CANNOT_DEDUCE_VECTOR_FOR_MATRIX_TYPE := by
  obtain ⟨ub, eg, mtl⟩ := sw
  cases ub <;> cases T <;> first | rfl | simp [matching, rules, vector_for_matrix_rules] at h

lemma unmatched_capture (sw : Switches) (T : CType) :
    (matching sw .matrix_expression_internal_storage T = [] →
      matrix_expression_internal_storage T = addRef T)
    ∧ (matching sw .reference_if_nonscalar T = [] → reference_if_nonscalar T = addRef T) := by
  constructor <;> intro h
  · cases T with
    | const t =>
      cases t <;> first
        | rfl | simp [matching, rules, matrix_expression_internal_storage_rules] at h
    | _ => rfl
  · cases T with
    | const t =>
      cases t <;> first | rfl | simp [matching, rules, reference_if_nonscalar_rules] at h
    | _ => first | rfl | simp [matching, rules, reference_if_nonscalar_rules] at h

/-- C12 (as stated, refuted): the type
`const vector_expression<const vector<float,1>, const float, op_mult>` is matched
by two `cpu_value_type` specialisations, the const-delegation rule (line 260) and
the dedicated rule for the const expression (line 314). -/
theorem rule_overlap_counterexample :
    matching Switches.none .cpu_value_type
      (.const (.vector_expression (.const (.vector .float 1)) (.const .float)
        (.named "op_mult"))) = [260, 314] := by
  rfl

/-- C12 (amended): for every switch setting, axis and type at most one
specialisation of the axis matches, with these exceptions, where exactly two
match: on `cpu_value_type`, a `const vector_expression<const T1, const T2, OP>`
is matched by the const-delegation rule and by its dedicated rule; on `size_type`
under `VIENNACL_WITH_EIGEN`, `Eigen::VectorXf` and `Eigen::VectorXd` are matched
by the `Eigen::Matrix` rule and by their own full specialisation. -/
theorem rule_overlap (sw : Switches) (ax : Axis) (T : CType) :
    (matching sw ax T).length ≤ 1
    ∨ (ax = .cpu_value_type
        ∧ ∃ t1 t2 op, T = .const (.vector_expression (.const t1) (.const t2) op)
          ∧ matching sw ax T = [260, 314])
    ∨ (ax = .size_type ∧ sw.VIENNACL_WITH_EIGEN = true ∧ T = Eigen_VectorXf
        ∧ matching sw ax T = [177, 183])
    ∨ (ax = .size_type ∧ sw.VIENNACL_WITH_EIGEN = true ∧ T = Eigen_VectorXd
        ∧ matching sw ax T = [177, 189]) := by
  cases ax with
  | alignment => exact Or.inl (matching_alignment sw T)
  | orientation_functor => exact Or.inl (matching_orientation_functor sw T)
  | size_type =>
    rcases matching_size_type sw T with h | h | h
    · exact Or.inl h
    · exact Or.inr (Or.inr (Or.inl ⟨rfl, h⟩))
    · exact Or.inr (Or.inr (Or.inr ⟨rfl, h⟩))
  | value_type => exact Or.inl (matching_value_type sw T)
  | cpu_value_type =>
    rcases matching_cpu_value_type sw T with h | h
    · exact Or.inl h
    · exact Or.inr (Or.inl ⟨rfl, h⟩)
  | vector_for_matrix => exact Or.inl (matching_vector_for_matrix sw T)
  | matrix_expression_internal_storage =>
    exact Or.inl (matching_matrix_expression_internal_storage sw T)
  | reference_if_nonscalar => exact Or.inl (matching_reference_if_nonscalar sw T)

/-! ## C13: the feature switches and the built-in shapes -/

lemma size_type_switch (decls : Decls) (sw : Switches) (T : CType) (h : isEigen T = false) :
    size_type decls sw T = size_type decls Switches.none T := by
  obtain ⟨ub, eg, mtl⟩ := sw
  cases eg
  · simp [size_type, Switches.none]
  · cases T <;> simp_all [size_type, Switches.none, isEigen]

lemma value_type_switch (decls : Decls) (sw : Switches) (T : CType) (h : isEigen T = false) :
    value_type decls sw T = value_type decls Switches.none T := by
  obtain ⟨ub, eg, mtl⟩ := sw
  cases eg
  · simp [value_type, Switches.none]
  · cases T <;> simp_all [value_type, Switches.none, isEigen]

lemma vector_for_matrix_switch (sw : Switches) (T : CType) (h : isUblas T = false) :
    vector_for_matrix sw T = vector_for_matrix Switches.none T := by
  obtain ⟨ub, eg, mtl⟩ := sw
  cases ub
  · simp [vector_for_matrix, Switches.none]
  · cases T <;> simp_all [vector_for_matrix, Switches.none, isUblas]

/-- C13: for every axis and every type that is not itself an Eigen or uBLAS
class (so every built-in shape, its views, expressions and const forms), the
resolution under any setting of the three switches equals the resolution with
all switches disabled. -/
theorem switch_non_interference (decls : Decls) (sw : Switches) (ax : Axis) (T : CType)
    (he : isEigen T = false) (hu : isUblas T = false) :
    resolve decls sw ax T = resolve decls Switches.none ax T := by
  cases ax <;> simp only [resolve]
  · rw [size_type_switch decls sw T he]
  · rw [value_type_switch decls sw T he]
  · rw [vector_for_matrix_switch sw T hu]

/-- C13 at `const matrix_range<matrix<double,column_major,1>>` on the `size_type`
axis with all three switches enabled. -/
theorem switch_non_interference_witness :
    isEigen (.const (.matrix_range (.matrix .double .column_major 1))) = false
    ∧ isUblas (.const (.matrix_range (.matrix .double .column_major 1))) = false
    ∧ resolve ⟨fun _ => some .size_t, fun _ => some .double⟩ ⟨true, true, true⟩ .size_type
        (.const (.matrix_range (.matrix .double .column_major 1)))
      = resolve ⟨fun _ => some .size_t, fun _ => some .double⟩ Switches.none .size_type
        (.const (.matrix_range (.matrix .double .column_major 1))) :=
  ⟨rfl, rfl, switch_non_interference _ ⟨true, true, true⟩ .size_type
    (.const (.matrix_range (.matrix .double .column_major 1))) rfl rfl⟩

/-! ## C14: the `size_type` axis -/

lemma size_type_primary (decls : Decls) (sw : Switches) (T : CType) (h : isEigen T = false) :
    size_type decls sw T =
      match memberType decls.size_type T with
      | some r => .ok r
      | Option.none => .error .no_member_size_type := by
  rw [size_type_switch decls sw T h]
  simp [size_type, Switches.none]

/-- C14 (as stated, refuted): `size_type` has no uBLAS rule.  With
`VIENNACL_WITH_UBLAS` enabled and a `ublas::compressed_matrix` whose declared
`size_type` is `unsigned int`, the axis returns `unsigned int`, not `std::size_t`. -/
theorem size_type_axis_counterexample :
    size_type ⟨fun _ => some (.named "unsigned int"), fun _ => Option.none⟩
        ⟨true, false, false⟩
        (.ublas_compressed_matrix .double .row_major 0
          (.named "unbounded_array<unsigned int>") (.named "unbounded_array<double>"))
      = .ok (.named "unsigned int") := by
  rfl

/-- C14 (amended): for every type that is not an Eigen class (every built-in
shape, and the uBLAS matrix shapes under any switch setting) `size_type` is the
type's own declared `size_type`, unchanged, and the missing-member error when it
declares none; under `VIENNACL_WITH_EIGEN`, `Eigen::Matrix` and
`Eigen::SparseMatrix` give `std::size_t` whatever they declare. -/
theorem size_type_axis (decls : Decls) (sw : Switches) (T : CType)
    (h : isEigen T = false) :
    size_type decls sw T =
      (match memberType decls.size_type T with
        | some r => .ok r
        | Option.none => .error .no_member_size_type)
    ∧ (∀ (ub mtl : Bool) (s : CType) (a b c d e : Int),
        size_type decls ⟨ub, true, mtl⟩ (.eigen_Matrix s a b c d e) = .ok .size_t)
    ∧ (∀ (ub mtl : Bool) (s : CType) (o : Int),
        size_type decls ⟨ub, true, mtl⟩ (.eigen_SparseMatrix s o) = .ok .size_t) := by
  refine ⟨size_type_primary decls sw T h, ?_, ?_⟩
  · intro ub mtl s a b c d e
    unfold size_type
    split <;> first
      | rfl
      | (rename_i hne _; exact absurd rfl (hne s a b c d e rfl))
  · intro ub mtl s o
    simp [size_type]

/-- C14 at `ublas::matrix<double>` declaring `size_type` as `std::size_t`, with
the uBLAS and Eigen switches enabled: the declared type is returned. -/
theorem size_type_axis_witness :
    isEigen (.ublas_matrix .double .row_major (.named "unbounded_array<double>")) = false
    ∧ size_type ⟨fun _ => some .size_t, fun _ => some .double⟩ ⟨true, true, false⟩
        (.ublas_matrix .double .row_major (.named "unbounded_array<double>")) = .ok .size_t :=
  ⟨rfl, (size_type_axis ⟨fun _ => some .size_t, fun _ => some .double⟩ ⟨true, true, false⟩
    (.ublas_matrix .double .row_major (.named "unbounded_array<double>")) rfl).1⟩

/-! ## C15: base rules -/

/-- C15: `alignment<vector<S,A>>` is `A`, `cpu_value_type<vector<S,A>>` is `S`,
`alignment<matrix<S,F,A>>` is `A`, `orientation_functor<matrix<S,F,A>>` is `F`,
`cpu_value_type<matrix<S,F,A>>` is `S`, and `cpu_value_type` of `float`, `double`
and `scalar<S>` is `float`, `double` and `S`. -/
theorem base_rules (S F : CType) (A : Nat) :
    alignment (.vector S A) = .ok A
    ∧ cpu_value_type (.vector S A) = .ok S
    ∧ alignment (.matrix S F A) = .ok A
    ∧ orientation_functor (.matrix S F A) = .ok F
    ∧ cpu_value_type (.matrix S F A) = .ok S
    ∧ cpu_value_type .float = .ok .float
    ∧ cpu_value_type .double = .ok .double
    ∧ cpu_value_type (.scalar S) = .ok S := by
  simp [alignment, cpu_value_type, orientation_functor]

/-! ## C16: the dedicated const-expression rule -/

lemma cpu_value_type_by_const_delegation_eq (T : CType) :
    cpu_value_type_by_const_delegation T = cpu_value_type T := by
  induction T with
  | const t ih =>
    rw [cpu_value_type_const]
    simpa [cpu_value_type_by_const_delegation] using ih
  | vector_expression lhs rhs op ih _ _ =>
    cases lhs <;> cases rhs <;>
      simp [cpu_value_type, cpu_value_type_by_const_delegation]
    case const.const t1 t2 =>
      rw [cpu_value_type_const] at ih
      simpa [cpu_value_type_by_const_delegation] using ih
  | _ => simp_all [cpu_value_type, cpu_value_type_by_const_delegation]

/-- C16: for every type `T`, resolving or not, `cpu_value_type<const T>` equals
`cpu_value_type<T>`; for `T = vector_expression<const T1, const T2, OP>` the
dedicated rule gives `cpu_value_type<T1>`, which is what the non-const expression
rule gives, and the rule set without the dedicated rule computes the same function.
`alignment` and `orientation_functor` satisfy the same equality. -/
theorem const_delegation_refinement (T T1 T2 OP : CType) :
    cpu_value_type (.const T) = cpu_value_type T
    ∧ cpu_value_type (constQ T) = cpu_value_type T
    ∧ cpu_value_type (.const (.vector_expression (.const T1) (.const T2) OP))
        = cpu_value_type T1
    ∧ cpu_value_type (.vector_expression (.const T1) (.const T2) OP) = cpu_value_type T1
    ∧ cpu_value_type_by_const_delegation T = cpu_value_type T
    ∧ alignment (.const T) = alignment T
    ∧ alignment (constQ T) = alignment T
    ∧ orientation_functor (.const T) = orientation_functor T
    ∧ orientation_functor (constQ T) = orientation_functor T := by
  refine ⟨cpu_value_type_const T, ?_, by simp [cpu_value_type], by simp [cpu_value_type],
    cpu_value_type_by_const_delegation_eq T, alignment_const T, ?_,
    orientation_functor_const T, ?_⟩
  · rcases constQ_cases T with h | h <;> rw [h]
    exact cpu_value_type_const T
  · rcases constQ_cases T with h | h <;> rw [h]
    exact alignment_const T
  · rcases constQ_cases T with h | h <;> rw [h]
    exact orientation_functor_const T

/-! ## C17: consistency of the two capture axes -/

/-- C17: for every `T`, `matrix_expression_internal_storage<T>` is a reference or
`reference_if_nonscalar<T>` is a value (value capture on the first axis implies
value capture on the second); the two axes differ in capture mode exactly for
`float` and `double`, where the first gives `float&`, `double&` and the second
`float`, `double`; and on `const float`, `const double` the second axis keeps
`const` while the first drops it. -/
theorem capture_axes_consistency (T : CType) :
    (isReference (matrix_expression_internal_storage T) = true
      ∨ isReference (reference_if_nonscalar T) = false)
    ∧ (isReference (matrix_expression_internal_storage T)
          ≠ isReference (reference_if_nonscalar T) ↔ (T = .float ∨ T = .double))
    ∧ matrix_expression_internal_storage .float = .ref .float
    ∧ reference_if_nonscalar .float = .float
    ∧ matrix_expression_internal_storage .double = .ref .double
    ∧ reference_if_nonscalar .double = .double
    ∧ reference_if_nonscalar (.const .float) = .const .float
    ∧ matrix_expression_internal_storage (.const .float) = .float
    ∧ reference_if_nonscalar (.const .double) = .const .double
    ∧ matrix_expression_internal_storage (.const .double) = .double := by
  refine ⟨?_, ?_, rfl, rfl, rfl, rfl, rfl, rfl, rfl, rfl⟩
  · by_cases h2 : T = .const .float
    · subst h2; exact Or.inr rfl
    · by_cases h4 : T = .const .double
      · subst h4; exact Or.inr rfl
      · left
        rw [matrix_expression_internal_storage_default T h2 h4]
        exact isReference_addRef T
  · by_cases h1 : T = .float
    · subst h1; simp [matrix_expression_internal_storage, reference_if_nonscalar, addRef,
        isReference]
    · by_cases h3 : T = .double
      · subst h3; simp [matrix_expression_internal_storage, reference_if_nonscalar, addRef,
          isReference]
      · by_cases h2 : T = .const .float
        · subst h2; simp [matrix_expression_internal_storage, reference_if_nonscalar,
            isReference]
        · by_cases h4 : T = .const .double
          · subst h4; simp [matrix_expression_internal_storage, reference_if_nonscalar,
              isReference]
          · rw [matrix_expression_internal_storage_default T h2 h4,
              reference_if_nonscalar_default T h1 h2 h3 h4]
            simp [h1, h3]

/-! ## C18: totality of `cpu_value_type` on its well-formed domain -/

lemma cpu_value_type_native (r : CType) (h : isNativeScalar r = true) :
    cpu_value_type r = .ok r ∧ (r = .float ∨ r = .double) := by
  cases r <;> simp_all [isNativeScalar, cpu_value_type]

lemma cpu_value_type_on_domain (T : CType) (h : cpu_domain T = true) :
    ∃ r, cpu_value_type T = .ok r ∧ isNativeScalar r = true := by
  induction T with
  | const t ih =>
    rw [cpu_value_type_const]
    exact ih (by simpa [cpu_domain] using h)
  | vector_expression lhs rhs op ih _ _ =>
    cases lhs <;> cases rhs <;> simp [cpu_domain] at h
    case const.const t1 t2 =>
      have := ih (by simpa [cpu_domain] using h)
      rw [cpu_value_type_const] at this
      simpa [cpu_value_type] using this
  | _ => simp_all [cpu_domain, cpu_value_type, isNativeScalar]

/-- C18: for every type of the well-formed domain (a base shape over `float` or
`double` under any nesting of const, views, `matrix_expression` and
`vector_expression<const T1, const T2, OP>`), `cpu_value_type` resolves, never to
the failure marker, its result is `float` or `double`, and the result is a fixed
point of `cpu_value_type`. -/
theorem cpu_value_type_total (T : CType) (h : cpu_domain T = true) :
    ∃ r, cpu_value_type T = .ok r
      ∧ (r = .float ∨ r = .double)
      ∧ cpu_value_type r = .ok r
      ∧ (cpu_value_type T).bind cpu_value_type = cpu_value_type T
      ∧ cpu_value_type T ≠ .error .ERROR_CANNOT_DEDUCE_CPU_SCALAR_TYPE_FOR_T := by
  obtain ⟨r, hr, hn⟩ := cpu_value_type_on_domain T h
  obtain ⟨hfix, hfd⟩ := cpu_value_type_native r hn
  refine ⟨r, hr, hfd, hfix, ?_, ?_⟩
  · rw [hr]; exact hfix
  · rw [hr]; exact fun hcontra => by cases hcontra

/-- C18 at `const vector_range<vector_expression<const vector<double,1>,
const scalar<double>, op_prod>>`: the result is `double`. -/
theorem cpu_value_type_total_witness :
    cpu_domain (.const (.vector_range (.vector_expression (.const (.vector .double 1))
        (.const (.scalar .double)) (.named "op_prod")))) = true
    ∧ ∃ r, cpu_value_type (.const (.vector_range (.vector_expression
          (.const (.vector .double 1)) (.const (.scalar .double)) (.named "op_prod")))) = .ok r
      ∧ (r = .float ∨ r = .double)
      ∧ cpu_value_type r = .ok r
      ∧ (cpu_value_type (.const (.vector_range (.vector_expression
          (.const (.vector .double 1)) (.const (.scalar .double))
          (.named "op_prod"))))).bind cpu_value_type
        = cpu_value_type (.const (.vector_range (.vector_expression
          (.const (.vector .double 1)) (.const (.scalar .double)) (.named "op_prod"))))
      ∧ cpu_value_type (.const (.vector_range (.vector_expression
          (.const (.vector .double 1)) (.const (.scalar .double)) (.named "op_prod"))))
        ≠ .error .ERROR_CANNOT_DEDUCE_CPU_SCALAR_TYPE_FOR_T :=
  ⟨rfl, cpu_value_type_total _ rfl⟩

end viennacl.result_of
